import Mathlib

/-!
Shallow embedding of the lead-generation pipeline
("Heuristic Approach": scoring_engine.py, enrichment_engine.py,
main_pipeline.py) and proofs about its specification.

Text fields are modelled as `String`; Python `str.lower()` is modelled
per-character with `Char.toLower` (the keyword lists and all inputs of
interest are ASCII, where the two coincide), Python's `in` operator on
strings is modelled as substring containment on the underlying character
lists, and Python floats are modelled as exact rationals (every value the
scoring engine produces is an exact short decimal, where float and
rational arithmetic agree).
-/

namespace LeadGen

/-- Python `s.lower()` as a character list (ASCII case folding). -/
def pyLowerL (s : String) : List Char :=
  s.data.map Char.toLower

/-- Does the character list start with the given needle? -/
def startsWithL : List Char → List Char → Bool
  | [], _ => true
  | _ :: _, [] => false
  | a :: as, b :: bs => a == b && startsWithL as bs

/-- Python `needle in haystack` on strings: substring containment
(the empty needle is contained in everything, as in Python). -/
def hasSub (n : List Char) : List Char → Bool
  | [] => n.isEmpty
  | c :: t => startsWithL n (c :: t) || hasSub n t

/-- Case-insensitive containment of a (lower-case) keyword in a text,
Python `kw in text.lower()`. -/
def kwIn (kw : String) (text : String) : Bool :=
  hasSub kw.data (pyLowerL text)

/-- Propositional counterpart of `kwIn`, used to state claims:
the keyword's characters are an infix of the lowered text. -/
def ContainsKw (text kw : String) : Prop :=
  kw.data <:+: pyLowerL text

/-- Python `min` on two rationals (`min(a, b)` returns `a` on ties). -/
def pyMin (a b : ℚ) : ℚ :=
  if a ≤ b then a else b

/-- Round-half-to-even on a rational, Python's `round(x)` convention. -/
def roundHalfEven (q : ℚ) : ℤ :=
  if q - ⌊q⌋ < 1/2 then ⌊q⌋
  else if q - ⌊q⌋ > 1/2 then ⌊q⌋ + 1
  else if ⌊q⌋ % 2 = 0 then ⌊q⌋ else ⌊q⌋ + 1

/-- Python `round(x, 1)`: round to one decimal place, half to even.
All values reaching it in this program are exact decimals, where the
binary-float subtleties of Python's `round` do not arise. -/
def pyRound1 (q : ℚ) : ℚ :=
  (roundHalfEven (10 * q) : ℚ) / 10

/-- A profile record as consumed by the scorer and the pipeline.
Python passes a dict and reads fields with `profile.get(key, default)`;
the structure models every key the program reads, with the `get`
defaults as the values representing an absent key. -/
structure Profile where
  name : String := ""
  title : String := ""
  about : String := ""
  skills : String := ""
  company : String := ""
  location : String := ""
  funding_stage : String := ""
  is_biotech_hub : Bool := false
  publication_count : Nat := 0
  has_recent_pubs : Bool := false
  linkedin_url : String := ""
  extraction_status : String := ""
  error : String := ""
deriving DecidableEq, Repr

/-- `PropensityScorer.WEIGHTS` (scoring_engine.py lines 14-21). -/
def WEIGHTS : List (String × ℚ) :=
  [("role_relevance", 30), ("funding_stage", 20), ("tech_adoption", 15),
   ("nam_openness", 10), ("biotech_hub", 10), ("recent_publications", 40)]

/-- `PropensityScorer.TARGET_ROLES` (a Python set; membership tests only,
so list order is irrelevant). -/
def TARGET_ROLES : List String :=
  ["director of toxicology", "head of toxicology", "head of preclinical safety",
   "director of preclinical safety", "safety assessment", "hepatic toxicology",
   "investigative toxicology"]

/-- `PropensityScorer.ROLE_KEYWORDS["high"]`. -/
def ROLE_KEYWORDS_high : List String :=
  ["director", "head", "vp", "vice president", "chief", "lead"]

/-- `PropensityScorer.ROLE_KEYWORDS["medium"]`. -/
def ROLE_KEYWORDS_medium : List String :=
  ["senior", "principal", "manager"]

/-- `PropensityScorer.ROLE_KEYWORDS["low"]`. -/
def ROLE_KEYWORDS_low : List String :=
  ["scientist", "associate", "specialist"]

/-- `PropensityScorer.RELEVANT_DOMAINS`. -/
def RELEVANT_DOMAINS : List String :=
  ["toxicology", "toxicologist", "safety assessment", "preclinical",
   "hepatic", "investigative", "dili", "liver"]

/-- `PropensityScorer.passes_threshold` (lines 47-63): the profile is
relevant iff some domain keyword occurs in the lowered title or about. -/
def passes_threshold (p : Profile) : Bool :=
  RELEVANT_DOMAINS.any fun d => kwIn d p.title || kwIn d p.about

/-- `PropensityScorer._score_role` (lines 127-152). -/
def score_role (title about : String) : ℚ :=
  if TARGET_ROLES.any (fun r => kwIn r title) then 1
  else if !(RELEVANT_DOMAINS.any fun d => kwIn d title || kwIn d about) then 0
  else if ROLE_KEYWORDS_high.any (fun k => kwIn k title) then 1
  else if ROLE_KEYWORDS_medium.any (fun k => kwIn k title) then 6/10
  else if ROLE_KEYWORDS_low.any (fun k => kwIn k title) then 3/10
  else 5/10

/-- `PropensityScorer._score_funding` (lines 154-163). -/
def score_funding (stage : String) : ℚ :=
  if kwIn "series a" stage || kwIn "series b" stage then 1
  else if kwIn "series c" stage || kwIn "seed" stage then 6/10
  else 3/10

/-- Keyword list of `_score_tech_adoption`. -/
def TECH_KEYWORDS : List String :=
  ["3d", "organoid", "organ-on-chip", "microphysiological", "spheroid"]

/-- `PropensityScorer._score_tech_adoption` (lines 165-172):
`combined = f"{about} {skills}".lower()`, count matched keywords,
`min(matches / 3, 1.0)`. -/
def score_tech_adoption (about skills : String) : ℚ :=
  let mcount := TECH_KEYWORDS.countP fun kw => kwIn kw (about ++ " " ++ skills)
  pyMin ((mcount : ℚ) / 3) 1

/-- Keyword list of `_score_nam_openness`. -/
def NAM_KEYWORDS : List String :=
  ["alternative methods", "nam", "reduce animal", "3rs", "in vitro"]

/-- `PropensityScorer._score_nam_openness` (lines 174-181). -/
def score_nam_openness (about skills : String) : ℚ :=
  let mcount := NAM_KEYWORDS.countP fun kw => kwIn kw (about ++ " " ++ skills)
  pyMin ((mcount : ℚ) / 2) 1

/-- `PropensityScorer._score_location` (lines 183-185). -/
def score_location (is_hub : Bool) : ℚ :=
  if is_hub then 1 else 0

/-- `PropensityScorer._score_publications` (lines 187-200). -/
def score_publications (count : Nat) (has_recent : Bool) : ℚ :=
  if !has_recent then 0
  else if count ≥ 6 then 1
  else if count ≥ 3 then 7/10
  else if count ≥ 1 then 5/10
  else 0

/-- The `score_breakdown` value of `calculate_score`: a fixed string in
the threshold-failing branch, a factor-name-to-points mapping (a Python
dict in insertion order) in the passing branch. -/
inductive Breakdown where
  | message (s : String)
  | factors (m : List (String × ℚ))
deriving DecidableEq, Repr

/-- Whether a breakdown is the explanatory-string shape. -/
def Breakdown.isMessage : Breakdown → Bool
  | .message _ => true
  | .factors _ => false

/-- Result of `calculate_score`. -/
structure ScoreResult where
  probability_score : ℚ
  score_breakdown : Breakdown
deriving DecidableEq, Repr

/-- Weight lookup in the `WEIGHTS` dict. -/
def weightOf (k : String) : ℚ :=
  ((WEIGHTS.lookup k).getD 0)

/-- `PropensityScorer.calculate_score` (lines 65-125): threshold gate,
then six weighted sub-scores summed (dict insertion order) and rounded
to one decimal place. -/
def calculate_score (p : Profile) : ScoreResult :=
  if !passes_threshold p then
    ⟨0, .message "Profile did not pass relevance threshold"⟩
  else
    let r := score_role p.title p.about * weightOf "role_relevance"
    let f := score_funding p.funding_stage * weightOf "funding_stage"
    let t := score_tech_adoption p.about p.skills * weightOf "tech_adoption"
    let n := score_nam_openness p.about p.skills * weightOf "nam_openness"
    let b := score_location p.is_biotech_hub * weightOf "biotech_hub"
    let u := score_publications p.publication_count p.has_recent_pubs * weightOf "recent_publications"
    let total := r + f + t + n + b + u
    ⟨pyRound1 total,
     .factors [("role_relevance", r), ("funding_stage", f), ("tech_adoption", t),
               ("nam_openness", n), ("biotech_hub", b), ("recent_publications", u)]⟩

/-- Python `\s` on ASCII text (the whitespace class of `str.split` and
of the `re` module). -/
def isPySpace (c : Char) : Bool :=
  c == ' ' || c == '\t' || c == '\n' || c == '\r' || c == '\x0b' || c == '\x0c'

/-- Accumulator-based splitter behind `pySplitWS`. -/
def pySplitAux : List Char → List Char → List (List Char)
  | [], acc => if acc.isEmpty then [] else [acc.reverse]
  | c :: t, acc =>
    if isPySpace c then
      if acc.isEmpty then pySplitAux t [] else acc.reverse :: pySplitAux t []
    else pySplitAux t (c :: acc)

/-- Python `s.split()` with no argument: split on runs of whitespace,
discarding empty tokens. -/
def pySplitWS (l : List Char) : List (List Char) :=
  pySplitAux l []

/-- The legal-entity suffixes stripped by `EmailEnricher._infer_domain`,
in the order the regex alternation `(inc|llc|ltd|corporation|corp|company|co)`
tries them. -/
def SUFFIX_ALTS : List (List Char) :=
  ["inc", "llc", "ltd", "corporation", "corp", "company", "co"].map String.data

/-- Python regex `\w` (ASCII approximation, adequate for the inputs
considered here): letters, digits, underscore. -/
def isWordChar (c : Char) : Bool :=
  c.isAlphanum || c == '_'

/-- Given the text right after a whitespace run, try the suffix
alternatives in order; the first one that is present and followed by a
word boundary (`\b`) wins, exactly as the regex backtracks. Returns the
remainder after the matched suffix. -/
def trySuffixAlts (rest : List Char) : Option (List Char) :=
  (SUFFIX_ALTS.find? fun s =>
      startsWithL s rest &&
        match rest.drop s.length with
        | [] => true
        | c :: _ => !isWordChar c).map
    fun s => rest.drop s.length

/-- Fuelled scanner behind `stripSuffixes`; the fuel only makes the
recursion structural (each step consumes at least one character, so fuel
equal to the text length is always enough and the `0` branch is never
taken then). -/
def stripSuffixesF : Nat → List Char → List Char
  | 0, l => l
  | _ + 1, [] => []
  | fuel + 1, c :: t =>
    if isPySpace c then
      match trySuffixAlts (t.dropWhile isPySpace) with
      | some rest => stripSuffixesF fuel rest
      | none => c :: stripSuffixesF fuel t
    else c :: stripSuffixesF fuel t

/-- One global pass of
`re.sub(r'\s+(inc|llc|ltd|corporation|corp|company|co)\b', '', s)`:
scan left to right; at each position where one or more whitespace
characters are followed by a suffix alternative at a word boundary,
delete that whitespace-plus-suffix and resume after it; otherwise keep
the character and move on. -/
def stripSuffixes (l : List Char) : List Char :=
  stripSuffixesF l.length l

/-- `EmailEnricher._infer_domain` (enrichment_engine.py lines 46-56):
lower-case the company name, strip legal-entity suffixes, drop all
characters outside `[a-z0-9]`, and append `.com`; empty if nothing
remains. -/
def infer_domain (company : String) : String :=
  let clean := (stripSuffixes (pyLowerL company)).filter fun c => c.isLower || c.isDigit
  if clean.isEmpty then "" else ⟨clean ++ ".com".data⟩

/-- `EmailEnricher.generate_email` (enrichment_engine.py lines 21-44),
with the `domain` argument at its default `None` (as the pipeline calls
it): split the lowered name on whitespace, require at least two tokens,
keep only `[a-z]` in the first and last token, infer the company domain,
and produce `first.last@domain`; empty string on any failure. -/
def generate_email (name company : String) : String :=
  if name = "" ∨ company = "" then ""
  else
    let name_parts := pySplitWS (pyLowerL name)
    if name_parts.length < 2 then ""
    else
      let first := (name_parts.headD []).filter Char.isLower
      let last := (name_parts.getLastD []).filter Char.isLower
      let domain := infer_domain company
      if first ≠ [] ∧ last ≠ [] ∧ domain ≠ "" then
        ⟨first ++ '.' :: last ++ '@' :: domain.data⟩
      else ""

/-- Result record of `PublicationEnricher.search_publications`. -/
structure PubResult where
  publication_count : Nat
  has_recent_pubs : Bool
deriving DecidableEq, Repr

/-- Outcome of the PubMed esearch HTTP call that
`search_publications` performs, abstracted as data: `Except.error`
stands for any raised exception (connection failure, timeout, non-2xx
status via `raise_for_status`, JSON decode error), and `Except.ok ids`
stands for a parsed response whose `esearchresult.idlist` is `ids`
(a response missing those keys parses to `[]` through the `.get`
chain in the source). -/
def PubMedOutcome : Type :=
  Except String (List String)

/-- `PublicationEnricher.search_publications` (enrichment_engine.py
lines 76-127): empty author short-circuits; an exception anywhere in the
`try` block is swallowed into `(0, False)`; otherwise the result counts
the returned PMIDs. -/
def search_publications (author_name : String) (outcome : PubMedOutcome) : PubResult :=
  if author_name = "" then ⟨0, false⟩
  else
    match outcome with
    | .error _ => ⟨0, false⟩
    | .ok pmids => ⟨pmids.length, decide (pmids.length > 0)⟩

/-- `CompanyEnricher.BIOTECH_HUBS` (a Python set; membership tests only). -/
def BIOTECH_HUBS : List String :=
  ["boston", "cambridge", "san diego", "san francisco", "bay area", "basel",
   "munich", "london", "seattle", "research triangle", "raleigh", "durham"]

/-- `CompanyEnricher._is_biotech_hub` (lines 155-161). -/
def is_biotech_hub_of (location : String) : Bool :=
  if location = "" then false
  else BIOTECH_HUBS.any fun hub => kwIn hub location

/-- `CompanyEnricher._infer_funding_stage` (lines 163-174). -/
def infer_funding_stage (company : String) : String :=
  if company = "" then "Unknown"
  else if ["therapeutics", "bio", "pharma"].any (fun term => kwIn term company) then
    "Series A/B"
  else "Unknown"

/-- `CompanyEnricher._infer_hq` (lines 149-153). -/
def infer_hq (person_location : String) : String :=
  if person_location = "" then "Unknown" else person_location

/-- `WorkModeInferencer.REMOTE_KEYWORDS`. -/
def REMOTE_KEYWORDS : List String :=
  ["remote", "distributed", "virtual", "work from home", "wfh"]

/-- `WorkModeInferencer.infer_work_mode` (lines 182-201). -/
def infer_work_mode (title location about : String) : String :=
  if REMOTE_KEYWORDS.any (fun k => kwIn k (title ++ " " ++ location ++ " " ++ about)) then
    "Remote"
  else "Onsite"

/-- A row of the orchestrator's combined results table
(main_pipeline.py; the columns built in `process_batch` plus
`extraction_status`/`error`, which exist on the in-memory frame). -/
structure OutRecord where
  rank : Nat
  probability_score : ℚ
  name : String
  title : String
  company : String
  person_location : String
  company_hq : String
  work_mode : String
  email : String
  linkedin_url : String
  extraction_status : String
  error : String
deriving DecidableEq, Repr

/-- The placeholder row saved for a failed extraction
(main_pipeline.py lines 96-112). -/
def makeFailedRecord (p : Profile) : OutRecord :=
  ⟨0, 0, p.name, p.title, p.company, p.location, "", "", "", p.linkedin_url,
   "failed", p.error⟩

/-- The enriched row built for a threshold-passing successful profile
(main_pipeline.py lines 119-166): enrich with email, publications
(through the abstracted PubMed outcome for the profile's name), company
data and work mode, then score the updated profile. -/
def makeSuccessRecord (pubO : String → PubMedOutcome) (p : Profile) : OutRecord :=
  let email := generate_email p.name p.company
  let pub := search_publications p.name (pubO p.name)
  let enriched : Profile :=
    { p with
      publication_count := pub.publication_count
      has_recent_pubs := pub.has_recent_pubs
      is_biotech_hub := is_biotech_hub_of p.location
      funding_stage := infer_funding_stage p.company }
  let work_mode := infer_work_mode p.title p.location p.about
  let score := calculate_score enriched
  ⟨0, score.probability_score, p.name, p.title, p.company, p.location,
   infer_hq p.location, work_mode, email, p.linkedin_url, "success", p.error⟩

/-- Whether `process_batch` emits a row for this profile: failed
extractions are retained as placeholders, successful extractions only if
they pass the relevance threshold (threshold-failing profiles are
dropped entirely, main_pipeline.py lines 114-117). -/
def keptB (p : Profile) : Bool :=
  !(p.extraction_status == "success") || passes_threshold p

/-- Processing of one extracted profile inside
`LeadGenerationPipeline.process_batch` (lines 95-169). -/
def processProfile (pubO : String → PubMedOutcome) (p : Profile) : Option OutRecord :=
  if !(p.extraction_status == "success") then some (makeFailedRecord p)
  else if !passes_threshold p then none
  else some (makeSuccessRecord pubO p)

/-- `LeadGenerationPipeline.process_batch` over already-extracted
profiles: one pass, in order, collecting the emitted rows. -/
def process_batch (pubO : String → PubMedOutcome) (profiles : List Profile) : List OutRecord :=
  profiles.filterMap (processProfile pubO)

/-- Ascending comparison on `probability_score`, the key of
`combined_df.sort_values('probability_score', ascending=False)`. -/
def scoreLe (a b : OutRecord) : Prop :=
  a.probability_score ≤ b.probability_score

instance : DecidableRel scoreLe :=
  fun a b => inferInstanceAs (Decidable (a.probability_score ≤ b.probability_score))

instance : IsTotal OutRecord scoreLe :=
  ⟨fun a b => le_total a.probability_score b.probability_score⟩

instance : IsTrans OutRecord scoreLe :=
  ⟨fun _ _ _ hab hbc => le_trans hab hbc⟩

/-- `combined_df.sort_values('probability_score', ascending=False)`
(main_pipeline.py lines 240-243). pandas computes an ascending argsort of
the key and reverses the indexer for `ascending=False` (`nargsort` in
pandas/core/sorting.py); numpy's default sort on inputs of the sizes
considered here is a stable insertion sort, so the model is a stable
ascending sort followed by reversal. In particular records with equal
scores come out in reversed input order. -/
def sort_values_desc (l : List OutRecord) : List OutRecord :=
  (List.insertionSort scoreLe l).reverse

/-- The pandas mask
`(combined_df['probability_score'] > 0) & (combined_df['extraction_status'] == 'success')`
(main_pipeline.py line 247). -/
def scoredB (r : OutRecord) : Bool :=
  decide (0 < r.probability_score) && (r.extraction_status == "success")

/-- `combined_df.loc[scored_mask, 'rank'] = range(1, scored_mask.sum() + 1)`
after `combined_df['rank'] = 0` (lines 246-248): walk the sorted rows in
positional order, giving masked rows the successive ranks `k, k+1, ...`
and every other row rank 0. -/
def assignLoop (k : Nat) : List OutRecord → List OutRecord
  | [] => []
  | r :: t =>
    if scoredB r then { r with rank := k } :: assignLoop (k + 1) t
    else { r with rank := 0 } :: assignLoop k t

/-- The complete rank-assignment step the orchestrator applies to the
combined results table before persisting it (main_pipeline.py
lines 239-248). -/
def assignRanks (l : List OutRecord) : List OutRecord :=
  assignLoop 1 (sort_values_desc l)

/-- A record with its rank field zeroed; used to compare tables up to
rank assignment. -/
def clearRank (r : OutRecord) : OutRecord :=
  { r with rank := 0 }

/-- `LeadGenerationPipeline.get_processed_urls` (main_pipeline.py
lines 63-67): the `linkedin_url` column of the prior output (membership
is all that is ever asked of it). -/
def get_processed_urls (existing : List OutRecord) : List String :=
  existing.map OutRecord.linkedin_url

/-- The work-queue filter of `LeadGenerationPipeline.run`
(main_pipeline.py line 204): keep the input identifiers that do not
appear in the prior output. -/
def urls_to_process (allUrls : List String) (existing : List OutRecord) : List String :=
  allUrls.filter fun u => !(get_processed_urls existing).contains u

/-- One run of `LeadGenerationPipeline.run` whose filtered queue fits in
a single batch (`batch_size = 10` in the source; every instance
considered here uses at most a handful of identifiers): load prior
output, filter the queue, return unchanged when nothing is left to do
(line 214-216), otherwise extract, process, combine with the prior
output, and assign ranks. `extract` abstracts the browser/LLM extraction
collaborator (`LinkedInExtractor`), which tags each returned profile with
the requested URL and an extraction status. -/
def run_once (extract : String → Profile) (pubO : String → PubMedOutcome)
    (allUrls : List String) (existing : List OutRecord) : List OutRecord :=
  let queue := urls_to_process allUrls existing
  if queue.isEmpty then existing
  else assignRanks (existing ++ process_batch pubO (queue.map extract))

instance (text kw : String) : Decidable (ContainsKw text kw) :=
  inferInstanceAs (Decidable (_ <:+: _))

/-- Claim C7's description of the role-relevance sub-score, written from
the spec's words: 1.0 on an exact target-role phrase in the title; else
0.0 when neither title nor about mentions a relevant domain; else
1.0/0.6/0.3 by seniority tier, first match winning; else 0.5. -/
def roleRelevanceSpec (title about : String) : ℚ :=
  if ∃ r ∈ TARGET_ROLES, ContainsKw title r then 1
  else if ¬∃ d ∈ RELEVANT_DOMAINS, ContainsKw title d ∨ ContainsKw about d then 0
  else if ∃ k ∈ ROLE_KEYWORDS_high, ContainsKw title k then 1
  else if ∃ k ∈ ROLE_KEYWORDS_medium, ContainsKw title k then 6/10
  else if ∃ k ∈ ROLE_KEYWORDS_low, ContainsKw title k then 3/10
  else 5/10

/-- Claim C4's description of the persisted ranks, written from the
claim's words: a scored record (successful extraction with positive
score) at input position `i` receives rank one plus the number of scored
records that either have a strictly higher score or tie the score at an
earlier input position (descending score, ties broken by stable original
input order); every other record keeps rank 0. -/
def claimPredictedRanks (l : List OutRecord) : List OutRecord :=
  l.enum.map fun p =>
    if scoredB p.2 then
      { p.2 with
        rank := 1 + l.enum.countP fun q =>
          scoredB q.2 &&
            (decide (p.2.probability_score < q.2.probability_score) ||
              (decide (q.2.probability_score = p.2.probability_score) && decide (q.1 < p.1))) }
    else { p.2 with rank := 0 }

/-- Claim C4 as stated, for a given combined table: the persisted table
is, up to order, the input records carrying exactly the
stable-descending ranks described by the claim. -/
def rankClaimHolds (l : List OutRecord) : Prop :=
  (assignRanks l).Perm (claimPredictedRanks l)

/-- Claim C8 as stated: the generated email is empty exactly when the
name has fewer than two whitespace-separated tokens or the company
yields no usable domain; otherwise it is `first.last@domain` built from
the letter-only first and last name tokens and the inferred domain. -/
def emailClaimSpec (name company : String) : Prop :=
  if (pySplitWS (pyLowerL name)).length < 2 then
    generate_email name company = ""
  else if infer_domain company = "" then
    generate_email name company = ""
  else
    generate_email name company =
      ⟨((pySplitWS (pyLowerL name)).headD []).filter Char.isLower ++
        '.' :: ((pySplitWS (pyLowerL name)).getLastD []).filter Char.isLower ++
        '@' :: (infer_domain company).data⟩

instance (l : List OutRecord) : Decidable (rankClaimHolds l) :=
  decidable_of_iff ((assignRanks l).Perm (claimPredictedRanks l)) Iff.rfl

instance (name company : String) : Decidable (emailClaimSpec name company) := by
  unfold emailClaimSpec
  infer_instance

/-- A threshold-passing profile on which every factor attains its
maximum: all six weights are collected in full. -/
def maxProfile : Profile :=
  { title := "Director of Toxicology"
    about := "3d organoid spheroid alternative methods nam"
    funding_stage := "Series A"
    is_biotech_hub := true
    publication_count := 6
    has_recent_pubs := true }

/-- A modest threshold-passing profile used to instantiate the
hypothesis-bearing theorems. -/
def midProfile : Profile :=
  { name := "Jane Doe", title := "Senior Toxicologist", company := "Acme Therapeutics Inc" }

/-- A profile failing the relevance threshold (no domain keyword in
title or about). -/
def offProfile : Profile :=
  { name := "John Roe", title := "Executive Chef", about := "fine dining" }

/-- Shorthand for building rows of the rank-assignment examples. -/
def mkRow (nm : String) (score : ℚ) (status : String) : OutRecord :=
  ⟨0, score, nm, "", "", "", "", "", "", "url-" ++ nm, status, ""⟩

/-- The claim C4 example table: scores [90, 90, 40] for successful
extractions, in that input order, plus one failed extraction. -/
def tieTable : List OutRecord :=
  [mkRow "A" 90 "success", mkRow "B" 90 "success", mkRow "C" 40 "success",
   mkRow "D" 0 "failed"]

/-- Extraction stub for the claim C5 scenario: every URL resolves to a
successfully extracted profile whose title and about mention no relevant
domain, so the threshold gate drops it from the output. -/
def offTopicExtract (u : String) : Profile :=
  { name := "Jack Smith", title := "Executive Chef", about := "fine dining",
    company := "Bistro LLC", location := "Paris", linkedin_url := u,
    extraction_status := "success" }

/-- Publication oracle that always fails with a network error. -/
def failingPubOracle (_ : String) : PubMedOutcome :=
  .error "connection timeout"

/-- The single-identifier input of the claim C5 counterexample. -/
def oneUrl : List String :=
  ["https://linkedin.com/in/u1"]

theorem startsWithL_iff (n h : List Char) : startsWithL n h = true ↔ n <+: h := by
  induction n generalizing h with
  | nil => simp [startsWithL]
  | cons a as ih =>
    cases h with
    | nil => simp [startsWithL]
    | cons b bs => simp [startsWithL, List.cons_prefix_cons, ih]

theorem hasSub_iff (n h : List Char) : hasSub n h = true ↔ n <:+: h := by
  induction h with
  | nil => simp [hasSub, List.isEmpty_iff]
  | cons c t ih => simp [hasSub, List.infix_cons_iff, startsWithL_iff, ih]

theorem kwIn_iff (kw text : String) : kwIn kw text = true ↔ ContainsKw text kw := by
  simp [kwIn, ContainsKw, hasSub_iff]

theorem any_kwIn_iff (kws : List String) (s : String) :
    (kws.any fun k => kwIn k s) = true ↔ ∃ k ∈ kws, ContainsKw s k := by
  simp [List.any_eq_true, kwIn_iff]

theorem any_kwIn2_iff (kws : List String) (s u : String) :
    (kws.any fun k => kwIn k s || kwIn k u) = true ↔
      ∃ k ∈ kws, ContainsKw s k ∨ ContainsKw u k := by
  simp [List.any_eq_true, kwIn_iff]

theorem passes_threshold_iff (p : Profile) :
    passes_threshold p = true ↔
      ∃ d ∈ RELEVANT_DOMAINS, ContainsKw p.title d ∨ ContainsKw p.about d :=
  any_kwIn2_iff RELEVANT_DOMAINS p.title p.about

theorem pyRound1_natCast (n : ℕ) : pyRound1 (n : ℚ) = n := by
  unfold pyRound1 roundHalfEven
  have h10 : (10 : ℚ) * n = ((10 * n : ℕ) : ℚ) := by push_cast; ring
  rw [h10, Int.floor_natCast]
  have hz : ((10 * n : ℕ) : ℚ) - ((10 * n : ℕ) : ℤ) = 0 := by push_cast; ring
  rw [hz]
  norm_num

theorem score_role_mem (t a : String) :
    score_role t a = 0 ∨ score_role t a = 3/10 ∨ score_role t a = 5/10 ∨
      score_role t a = 6/10 ∨ score_role t a = 1 := by
  unfold score_role
  split_ifs <;> norm_num

theorem score_funding_mem (s : String) :
    score_funding s = 3/10 ∨ score_funding s = 6/10 ∨ score_funding s = 1 := by
  unfold score_funding
  split_ifs <;> norm_num

theorem score_publications_mem (c : Nat) (b : Bool) :
    score_publications c b = 0 ∨ score_publications c b = 5/10 ∨
      score_publications c b = 7/10 ∨ score_publications c b = 1 := by
  unfold score_publications
  split_ifs <;> norm_num

theorem role_weighted (t a : String) :
    ∃ k : ℕ, score_role t a * 30 = (k : ℚ) ∧ k ≤ 30 ∧
      0 ≤ score_role t a ∧ score_role t a ≤ 1 := by
  rcases score_role_mem t a with h | h | h | h | h <;> rw [h]
  · exact ⟨0, by norm_num⟩
  · exact ⟨9, by norm_num⟩
  · exact ⟨15, by norm_num⟩
  · exact ⟨18, by norm_num⟩
  · exact ⟨30, by norm_num⟩

theorem funding_weighted (s : String) :
    ∃ k : ℕ, score_funding s * 20 = (k : ℚ) ∧ 6 ≤ k ∧ k ≤ 20 ∧
      0 ≤ score_funding s ∧ score_funding s ≤ 1 := by
  rcases score_funding_mem s with h | h | h <;> rw [h]
  · exact ⟨6, by norm_num⟩
  · exact ⟨12, by norm_num⟩
  · exact ⟨20, by norm_num⟩

theorem pyMin_div3_weighted (m : ℕ) :
    ∃ k : ℕ, pyMin ((m : ℚ)/3) 1 * 15 = (k : ℚ) ∧ k ≤ 15 ∧
      0 ≤ pyMin ((m : ℚ)/3) 1 ∧ pyMin ((m : ℚ)/3) 1 ≤ 1 := by
  unfold pyMin
  split_ifs with h
  · have hm : m ≤ 3 := by
      have := (div_le_one (by norm_num : (0:ℚ) < 3)).mp h
      exact_mod_cast this
    refine ⟨5 * m, ?_, by omega, ?_, h⟩
    · push_cast; ring
    · positivity
  · exact ⟨15, by norm_num⟩

theorem pyMin_div2_weighted (m : ℕ) :
    ∃ k : ℕ, pyMin ((m : ℚ)/2) 1 * 10 = (k : ℚ) ∧ k ≤ 10 ∧
      0 ≤ pyMin ((m : ℚ)/2) 1 ∧ pyMin ((m : ℚ)/2) 1 ≤ 1 := by
  unfold pyMin
  split_ifs with h
  · have hm : m ≤ 2 := by
      have := (div_le_one (by norm_num : (0:ℚ) < 2)).mp h
      exact_mod_cast this
    refine ⟨5 * m, ?_, by omega, ?_, h⟩
    · push_cast; ring
    · positivity
  · exact ⟨10, by norm_num⟩

theorem tech_weighted (a s : String) :
    ∃ k : ℕ, score_tech_adoption a s * 15 = (k : ℚ) ∧ k ≤ 15 ∧
      0 ≤ score_tech_adoption a s ∧ score_tech_adoption a s ≤ 1 :=
  pyMin_div3_weighted (TECH_KEYWORDS.countP fun kw => kwIn kw (a ++ " " ++ s))

theorem nam_weighted (a s : String) :
    ∃ k : ℕ, score_nam_openness a s * 10 = (k : ℚ) ∧ k ≤ 10 ∧
      0 ≤ score_nam_openness a s ∧ score_nam_openness a s ≤ 1 :=
  pyMin_div2_weighted (NAM_KEYWORDS.countP fun kw => kwIn kw (a ++ " " ++ s))

theorem location_weighted (b : Bool) :
    ∃ k : ℕ, score_location b * 10 = (k : ℚ) ∧ k ≤ 10 ∧
      0 ≤ score_location b ∧ score_location b ≤ 1 := by
  cases b <;> simp [score_location]
  · exact ⟨0, by norm_num⟩
  · exact ⟨10, by norm_num⟩

theorem publications_weighted (c : Nat) (b : Bool) :
    ∃ k : ℕ, score_publications c b * 40 = (k : ℚ) ∧ k ≤ 40 ∧
      0 ≤ score_publications c b ∧ score_publications c b ≤ 1 := by
  rcases score_publications_mem c b with h | h | h | h <;> rw [h]
  · exact ⟨0, by norm_num⟩
  · exact ⟨20, by norm_num⟩
  · exact ⟨28, by norm_num⟩
  · exact ⟨40, by norm_num⟩

theorem makeFailedRecord_name (p : Profile) : (makeFailedRecord p).name = p.name :=
  rfl

theorem makeSuccessRecord_name (pubO : String → PubMedOutcome) (p : Profile) :
    (makeSuccessRecord pubO p).name = p.name :=
  rfl

theorem calculate_score_fail (p : Profile) (h : passes_threshold p = false) :
    calculate_score p = ⟨0, .message "Profile did not pass relevance threshold"⟩ := by
  unfold calculate_score
  rw [h]
  rfl

theorem calculate_score_pass (p : Profile) (h : passes_threshold p = true) :
    calculate_score p =
      ⟨pyRound1 (score_role p.title p.about * 30 + score_funding p.funding_stage * 20 +
          score_tech_adoption p.about p.skills * 15 + score_nam_openness p.about p.skills * 10 +
          score_location p.is_biotech_hub * 10 +
          score_publications p.publication_count p.has_recent_pubs * 40),
       .factors [("role_relevance", score_role p.title p.about * 30),
                 ("funding_stage", score_funding p.funding_stage * 20),
                 ("tech_adoption", score_tech_adoption p.about p.skills * 15),
                 ("nam_openness", score_nam_openness p.about p.skills * 10),
                 ("biotech_hub", score_location p.is_biotech_hub * 10),
                 ("recent_publications",
                  score_publications p.publication_count p.has_recent_pubs * 40)]⟩ := by
  unfold calculate_score
  rw [h]
  rfl

theorem score_role_domain_lb (p : Profile) (h : passes_threshold p = true) :
    3/10 ≤ score_role p.title p.about := by
  have hd : (RELEVANT_DOMAINS.any fun d => kwIn d p.title || kwIn d p.about) = true := h
  unfold score_role
  split_ifs with h1 h2 h3 h4 h5
  · norm_num
  · simp [hd] at h2
  · norm_num
  · norm_num
  · norm_num
  · norm_num

theorem score_funding_lb (s : String) : 3/10 ≤ score_funding s := by
  rcases score_funding_mem s with h | h | h <;> rw [h] <;> norm_num

theorem total_weighted (p : Profile) :
    ∃ k : ℕ,
      score_role p.title p.about * 30 + score_funding p.funding_stage * 20 +
        score_tech_adoption p.about p.skills * 15 + score_nam_openness p.about p.skills * 10 +
        score_location p.is_biotech_hub * 10 +
        score_publications p.publication_count p.has_recent_pubs * 40 = (k : ℚ) ∧
      k ≤ 125 ∧ (passes_threshold p = true → 15 ≤ k) := by
  obtain ⟨k1, e1, b1, _⟩ := role_weighted p.title p.about
  obtain ⟨k2, e2, lb2, b2, _⟩ := funding_weighted p.funding_stage
  obtain ⟨k3, e3, b3, _⟩ := tech_weighted p.about p.skills
  obtain ⟨k4, e4, b4, _⟩ := nam_weighted p.about p.skills
  obtain ⟨k5, e5, b5, _⟩ := location_weighted p.is_biotech_hub
  obtain ⟨k6, e6, b6, _⟩ := publications_weighted p.publication_count p.has_recent_pubs
  refine ⟨k1 + k2 + k3 + k4 + k5 + k6, ?_, by omega, ?_⟩
  · rw [e1, e2, e3, e4, e5, e6]; push_cast; ring
  · intro h
    have h9 : (9 : ℚ) ≤ (k1 : ℚ) := by
      rw [← e1]
      have := score_role_domain_lb p h
      linarith
    have h9' : 9 ≤ k1 := by exact_mod_cast h9
    omega

/-- C1: a profile whose title and about mention, case-insensitively, none
of the fixed domain keywords fails the threshold gate, and
`calculate_score` then returns exactly `probability_score = 0` with the
explanatory message, short-circuiting: the result is a constant record
in which none of the six sub-scores appears. -/
theorem C1_threshold_gate_short_circuit (p : Profile)
    (h : ¬∃ d ∈ RELEVANT_DOMAINS, ContainsKw p.title d ∨ ContainsKw p.about d) :
    calculate_score p = ⟨0, .message "Profile did not pass relevance threshold"⟩ := by
  have hf : passes_threshold p = false := by
    rcases hb : passes_threshold p with _ | _
    · rfl
    · exact absurd ((passes_threshold_iff p).mp hb) h
  exact calculate_score_fail p hf

theorem C1_threshold_gate_short_circuit_witness :
    calculate_score offProfile = ⟨0, .message "Profile did not pass relevance threshold"⟩ :=
  C1_threshold_gate_short_circuit offProfile (by decide)

/-- C10: the `score_breakdown` field has two shapes: it is the fixed
string "Profile did not pass relevance threshold" exactly when the
threshold gate fails, and in the passing branch it is a six-entry
numeric mapping whose keys are the six factor names. -/
theorem C10_breakdown_two_shapes (p : Profile) :
    ((calculate_score p).score_breakdown.isMessage = true ↔ passes_threshold p = false) ∧
    (passes_threshold p = false →
      (calculate_score p).score_breakdown =
        .message "Profile did not pass relevance threshold") ∧
    (passes_threshold p = true →
      ∃ m, (calculate_score p).score_breakdown = .factors m ∧
        m.map Prod.fst =
          ["role_relevance", "funding_stage", "tech_adoption", "nam_openness",
           "biotech_hub", "recent_publications"] ∧ m.length = 6) := by
  rcases hb : passes_threshold p with _ | _
  · rw [calculate_score_fail p hb]
    exact ⟨by simp [Breakdown.isMessage], fun _ => rfl, fun ht => Bool.noConfusion ht⟩
  · rw [calculate_score_pass p hb]
    refine ⟨by simp [Breakdown.isMessage, hb], fun hf => Bool.noConfusion hf, fun _ => ?_⟩
    exact ⟨_, rfl, rfl, rfl⟩

theorem C10_breakdown_two_shapes_witness :
    (calculate_score offProfile).score_breakdown =
        .message "Profile did not pass relevance threshold" ∧
      ∃ m, (calculate_score midProfile).score_breakdown = .factors m ∧
        m.map Prod.fst =
          ["role_relevance", "funding_stage", "tech_adoption", "nam_openness",
           "biotech_hub", "recent_publications"] ∧ m.length = 6 :=
  ⟨(C10_breakdown_two_shapes offProfile).2.1 (by decide),
   (C10_breakdown_two_shapes midProfile).2.2 (by decide)⟩

/-- C2: for a threshold-passing profile, `probability_score` is the
rounded (one decimal place) sum of the six weighted sub-scores, each
sub-score lies in [0, 1], and the returned breakdown maps the six factor
names to the weighted contributions, whose values sum exactly to
`probability_score`. -/
theorem C2_weighted_sum_and_breakdown (p : Profile) (h : passes_threshold p = true) :
    (calculate_score p).probability_score =
      pyRound1 (score_role p.title p.about * 30 + score_funding p.funding_stage * 20 +
        score_tech_adoption p.about p.skills * 15 + score_nam_openness p.about p.skills * 10 +
        score_location p.is_biotech_hub * 10 +
        score_publications p.publication_count p.has_recent_pubs * 40) ∧
    (0 ≤ score_role p.title p.about ∧ score_role p.title p.about ≤ 1) ∧
    (0 ≤ score_funding p.funding_stage ∧ score_funding p.funding_stage ≤ 1) ∧
    (0 ≤ score_tech_adoption p.about p.skills ∧ score_tech_adoption p.about p.skills ≤ 1) ∧
    (0 ≤ score_nam_openness p.about p.skills ∧ score_nam_openness p.about p.skills ≤ 1) ∧
    (0 ≤ score_location p.is_biotech_hub ∧ score_location p.is_biotech_hub ≤ 1) ∧
    (0 ≤ score_publications p.publication_count p.has_recent_pubs ∧
      score_publications p.publication_count p.has_recent_pubs ≤ 1) ∧
    ∃ m, (calculate_score p).score_breakdown = .factors m ∧
      m.map Prod.fst =
        ["role_relevance", "funding_stage", "tech_adoption", "nam_openness",
         "biotech_hub", "recent_publications"] ∧
      (m.map Prod.snd).sum = (calculate_score p).probability_score := by
  obtain ⟨_, _, _, br1, br2⟩ := role_weighted p.title p.about
  obtain ⟨_, _, _, _, bf1, bf2⟩ := funding_weighted p.funding_stage
  obtain ⟨_, _, _, bt1, bt2⟩ := tech_weighted p.about p.skills
  obtain ⟨_, _, _, bn1, bn2⟩ := nam_weighted p.about p.skills
  obtain ⟨_, _, _, bl1, bl2⟩ := location_weighted p.is_biotech_hub
  obtain ⟨_, _, _, bp1, bp2⟩ := publications_weighted p.publication_count p.has_recent_pubs
  obtain ⟨k, hk, _, _⟩ := total_weighted p
  rw [calculate_score_pass p h]
  refine ⟨rfl, ⟨br1, br2⟩, ⟨bf1, bf2⟩, ⟨bt1, bt2⟩, ⟨bn1, bn2⟩, ⟨bl1, bl2⟩, ⟨bp1, bp2⟩,
    _, rfl, rfl, ?_⟩
  show score_role p.title p.about * 30 + (score_funding p.funding_stage * 20 +
      (score_tech_adoption p.about p.skills * 15 + (score_nam_openness p.about p.skills * 10 +
      (score_location p.is_biotech_hub * 10 +
      (score_publications p.publication_count p.has_recent_pubs * 40 + 0))))) = _
  rw [add_zero]
  rw [show score_role p.title p.about * 30 + (score_funding p.funding_stage * 20 +
      (score_tech_adoption p.about p.skills * 15 + (score_nam_openness p.about p.skills * 10 +
      (score_location p.is_biotech_hub * 10 +
      score_publications p.publication_count p.has_recent_pubs * 40)))) =
      score_role p.title p.about * 30 + score_funding p.funding_stage * 20 +
      score_tech_adoption p.about p.skills * 15 + score_nam_openness p.about p.skills * 10 +
      score_location p.is_biotech_hub * 10 +
      score_publications p.publication_count p.has_recent_pubs * 40 from by ring]
  rw [hk, pyRound1_natCast]

theorem C2_weighted_sum_and_breakdown_witness :
    (calculate_score midProfile).probability_score =
      pyRound1 (score_role midProfile.title midProfile.about * 30 +
        score_funding midProfile.funding_stage * 20 +
        score_tech_adoption midProfile.about midProfile.skills * 15 +
        score_nam_openness midProfile.about midProfile.skills * 10 +
        score_location midProfile.is_biotech_hub * 10 +
        score_publications midProfile.publication_count midProfile.has_recent_pubs * 40) ∧
    ∃ m, (calculate_score midProfile).score_breakdown = .factors m ∧
      m.map Prod.fst =
        ["role_relevance", "funding_stage", "tech_adoption", "nam_openness",
         "biotech_hub", "recent_publications"] ∧
      (m.map Prod.snd).sum = (calculate_score midProfile).probability_score := by
  obtain ⟨h1, _, _, _, _, _, _, h8⟩ := C2_weighted_sum_and_breakdown midProfile (by decide)
  exact ⟨h1, h8⟩

/-- C9: a profile passing the threshold gate scores at least 15: the
domain match forces a role-relevance sub-score of at least 0.3 (at least
9 points of 30) and any funding-stage text scores at least 0.3 (at least
6 points of 20); consequently `probability_score = 0` exactly when the
gate fails. -/
theorem C9_threshold_floor (p : Profile) :
    (passes_threshold p = true → 3/10 ≤ score_role p.title p.about) ∧
    (∀ s, 3/10 ≤ score_funding s) ∧
    (passes_threshold p = true → 15 ≤ (calculate_score p).probability_score) ∧
    ((calculate_score p).probability_score = 0 ↔ passes_threshold p = false) := by
  obtain ⟨k, hk, _, hk15⟩ := total_weighted p
  have hpass : passes_threshold p = true → 15 ≤ (calculate_score p).probability_score := by
    intro h
    rw [calculate_score_pass p h]
    show (15 : ℚ) ≤ pyRound1 _
    rw [hk, pyRound1_natCast]
    exact_mod_cast hk15 h
  refine ⟨score_role_domain_lb p, score_funding_lb, hpass, ?_⟩
  rcases hb : passes_threshold p with _ | _
  · rw [calculate_score_fail p hb]
    simp
  · have h15 := hpass hb
    constructor
    · intro h0
      rw [h0] at h15
      norm_num at h15
    · intro hf
      exact Bool.noConfusion hf

theorem C9_threshold_floor_witness :
    15 ≤ (calculate_score midProfile).probability_score ∧
      3/10 ≤ score_role midProfile.title midProfile.about :=
  ⟨(C9_threshold_floor midProfile).2.2.1 (by decide),
   (C9_threshold_floor midProfile).1 (by decide)⟩

/-- C3: the six weights are 30/20/15/10/10/40, summing to 125; no
clamping or normalization to 100 is applied: a concrete
threshold-passing profile scores above 100, and no profile can score
above 125. -/
theorem C3_weights_sum_125_no_clamp :
    (WEIGHTS.map Prod.snd).sum = 125 ∧
    weightOf "role_relevance" = 30 ∧ weightOf "funding_stage" = 20 ∧
    weightOf "tech_adoption" = 15 ∧ weightOf "nam_openness" = 10 ∧
    weightOf "biotech_hub" = 10 ∧ weightOf "recent_publications" = 40 ∧
    passes_threshold maxProfile = true ∧
    100 < (calculate_score maxProfile).probability_score ∧
    ∀ p : Profile, (calculate_score p).probability_score ≤ 125 := by
  refine ⟨by norm_num [WEIGHTS], rfl, rfl, rfl, rfl, rfl, rfl, by decide, ?_, ?_⟩
  · rw [calculate_score_pass maxProfile (by decide)]
    show (100 : ℚ) < pyRound1 _
    have e1 : score_role maxProfile.title maxProfile.about = 1 := rfl
    have e2 : score_funding maxProfile.funding_stage = 1 := rfl
    have e3 : score_tech_adoption maxProfile.about maxProfile.skills = pyMin ((3 : ℚ)/3) 1 := rfl
    have e4 : score_nam_openness maxProfile.about maxProfile.skills = pyMin ((2 : ℚ)/2) 1 := rfl
    have e5 : score_location maxProfile.is_biotech_hub = 1 := rfl
    have e6 : score_publications maxProfile.publication_count maxProfile.has_recent_pubs = 1 := rfl
    rw [e1, e2, e3, e4, e5, e6]
    have e3' : pyMin ((3 : ℚ)/3) 1 = 1 := by unfold pyMin; norm_num
    have e4' : pyMin ((2 : ℚ)/2) 1 = 1 := by unfold pyMin; norm_num
    rw [e3', e4']
    have : (1 : ℚ) * 30 + 1 * 20 + 1 * 15 + 1 * 10 + 1 * 10 + 1 * 40 = ((125 : ℕ) : ℚ) := by
      norm_num
    rw [this, pyRound1_natCast]
    norm_num
  · intro p
    rcases hb : passes_threshold p with _ | _
    · rw [calculate_score_fail p hb]
      norm_num
    · obtain ⟨k, hk, hk125, _⟩ := total_weighted p
      rw [calculate_score_pass p hb]
      show pyRound1 _ ≤ (125 : ℚ)
      rw [hk, pyRound1_natCast]
      exact_mod_cast hk125

/-- C6: `search_publications` is a total function of the author name and
the abstracted lookup outcome: a raised error (network failure,
malformed response) and an empty match list alike produce
`(publication_count = 0, has_recent_pubs = false)`, and the batch
processor emits one row per retained profile whatever the publication
oracle does, so one author's lookup failure never blocks the rest of the
batch. -/
theorem C6_publication_lookup_failsafe :
    (∀ author msg, search_publications author (.error msg) = ⟨0, false⟩) ∧
    (∀ author, search_publications author (.ok []) = ⟨0, false⟩) ∧
    (∀ (pubO : String → PubMedOutcome) (profiles : List Profile),
      (process_batch pubO profiles).map OutRecord.name =
        (profiles.filter keptB).map Profile.name) := by
  refine ⟨?_, ?_, ?_⟩
  · intro author msg
    unfold search_publications
    split_ifs <;> rfl
  · intro author
    unfold search_publications
    split_ifs <;> rfl
  · intro pubO profiles
    induction profiles with
    | nil => rfl
    | cons p t ih =>
      unfold process_batch at ih ⊢
      rw [List.filterMap_cons, List.filter_cons]
      rcases hs : (p.extraction_status == "success") with _ | _
      · have hp : processProfile pubO p = some (makeFailedRecord p) := by
          unfold processProfile
          rw [hs]
          rfl
        have hk : keptB p = true := by
          unfold keptB
          rw [hs]
          rfl
        rw [hp, hk]
        simp [ih, makeFailedRecord_name]
      · rcases ht : passes_threshold p with _ | _
        · have hp : processProfile pubO p = none := by
            unfold processProfile
            rw [hs, ht]
            rfl
          have hk : keptB p = false := by
            unfold keptB
            rw [hs, ht]
            rfl
          rw [hp, hk]
          simp [ih]
        · have hp : processProfile pubO p = some (makeSuccessRecord pubO p) := by
            unfold processProfile
            rw [hs, ht]
            rfl
          have hk : keptB p = true := by
            unfold keptB
            rw [hs, ht]
            rfl
          rw [hp, hk]
          simp [ih, makeSuccessRecord_name]

/-- C7: the role-relevance sub-score is exactly the tiered case analysis
the claim describes: 1.0 on a target-role phrase in the title, else 0.0
without a domain match in title or about, else 1.0/0.6/0.3 by
high/medium/low seniority keyword tier in the title (first match wins),
else 0.5. -/
theorem C7_role_relevance_spec (t a : String) :
    score_role t a = roleRelevanceSpec t a := by
  unfold score_role roleRelevanceSpec
  refine if_congr (any_kwIn_iff TARGET_ROLES t) rfl ?_
  refine if_congr ?_ rfl ?_
  · rw [Bool.not_eq_true']
    exact Bool.eq_false_iff.trans (not_congr (any_kwIn2_iff RELEVANT_DOMAINS t a))
  · refine if_congr (any_kwIn_iff ROLE_KEYWORDS_high t) rfl ?_
    refine if_congr (any_kwIn_iff ROLE_KEYWORDS_medium t) rfl ?_
    exact if_congr (any_kwIn_iff ROLE_KEYWORDS_low t) rfl rfl

theorem scoredB_set_rank (r : OutRecord) (k : Nat) :
    scoredB { r with rank := k } = scoredB r :=
  rfl

theorem assignLoop_map_clearRank (k : Nat) (l : List OutRecord) :
    (assignLoop k l).map clearRank = l.map clearRank := by
  induction l generalizing k with
  | nil => rfl
  | cons r t ih =>
    unfold assignLoop
    split_ifs with h
    · simp only [List.map_cons, ih]
      rfl
    · simp only [List.map_cons, ih]
      rfl

theorem assignLoop_rank_zero (k : Nat) (l : List OutRecord) :
    ∀ r' ∈ assignLoop k l, scoredB r' = false → r'.rank = 0 := by
  induction l generalizing k with
  | nil => intro r' hm; cases hm
  | cons r t ih =>
    intro r' hm hs
    unfold assignLoop at hm
    split_ifs at hm with h
    · rcases List.mem_cons.mp hm with he | hm'
      · rw [he, scoredB_set_rank, h] at hs
        exact Bool.noConfusion hs
      · exact ih (k + 1) r' hm' hs
    · rcases List.mem_cons.mp hm with he | hm'
      · rw [he]
      · exact ih k r' hm' hs

theorem assignLoop_filter_rank (k : Nat) (l : List OutRecord) :
    ((assignLoop k l).filter scoredB).map OutRecord.rank =
      List.range' k (l.countP scoredB) := by
  induction l generalizing k with
  | nil => rfl
  | cons r t ih =>
    unfold assignLoop
    rcases h : scoredB r with _ | _
    · simp only [h, Bool.false_eq_true, if_false, List.filter_cons, scoredB_set_rank,
        List.countP_cons]
      simpa using ih k
    · simp only [h, if_true, List.filter_cons, scoredB_set_rank, List.countP_cons]
      rw [List.map_cons, ih (k + 1), List.range'_succ]

theorem assignLoop_map_score (k : Nat) (l : List OutRecord) :
    (assignLoop k l).map OutRecord.probability_score =
      l.map OutRecord.probability_score := by
  induction l generalizing k with
  | nil => rfl
  | cons r t ih =>
    unfold assignLoop
    split_ifs with h
    · simp only [List.map_cons, ih]
    · simp only [List.map_cons, ih]

theorem sort_values_desc_perm (l : List OutRecord) : (sort_values_desc l).Perm l :=
  (List.reverse_perm _).trans (List.perm_insertionSort _ l)

theorem sort_values_desc_pairwise (l : List OutRecord) :
    List.Pairwise (fun x y : OutRecord => y.probability_score ≤ x.probability_score)
      (sort_values_desc l) := by
  have hs : List.Sorted scoreLe (List.insertionSort scoreLe l) :=
    List.sorted_insertionSort scoreLe l
  unfold sort_values_desc
  rw [List.pairwise_reverse]
  exact hs

/-- C4 counterexample: on the combined table with success scores
[90, 90, 40] (input order A, B, C) and one failed extraction D, the
persisted ranks are not the stable-tie-break assignment the claim
describes: pandas sorts descending by reversing an ascending argsort, so
B (the later 90) receives rank 1 and A rank 2, while the claim demands
A before B. -/
theorem C4_counterexample_stable_ties : ¬ rankClaimHolds tieTable := by
  decide

/-- C4 as amended: in the persisted table exactly the records with
`extraction_status = success` and positive `probability_score` receive
ranks, which are the consecutive integers 1..n in an order consistent
with descending `probability_score` (the tie order is whatever the
underlying sort produced — not the stable input order); every other
record keeps rank 0; and the table is the input table up to order and
rank fields. -/
theorem C4_amended_rank_assignment (l : List OutRecord) :
    ((assignRanks l).map clearRank).Perm (l.map clearRank) ∧
    (∀ r ∈ assignRanks l, scoredB r = false → r.rank = 0) ∧
    ((assignRanks l).filter scoredB).map OutRecord.rank =
      List.range' 1 (l.countP scoredB) ∧
    List.Pairwise (fun x y : OutRecord => y.probability_score ≤ x.probability_score)
      (assignRanks l) := by
  have hperm := sort_values_desc_perm l
  refine ⟨?_, ?_, ?_, ?_⟩
  · rw [assignRanks, assignLoop_map_clearRank]
    exact hperm.map clearRank
  · exact assignLoop_rank_zero 1 (sort_values_desc l)
  · rw [assignRanks, assignLoop_filter_rank, hperm.countP_eq]
  · have hp := sort_values_desc_pairwise l
    rw [assignRanks]
    have h2 : List.Pairwise (fun a b : ℚ => b ≤ a)
        ((assignLoop 1 (sort_values_desc l)).map OutRecord.probability_score) := by
      rw [assignLoop_map_score]
      exact List.pairwise_map.mpr hp
    exact List.pairwise_map.mp h2

theorem C4_amended_rank_assignment_witness : (mkRow "D" 0 "failed").rank = 0 :=
  (C4_amended_rank_assignment tieTable).2.1 (mkRow "D" 0 "failed") (by decide) (by decide)

/-- C5 counterexample: a successfully extracted profile that fails the
relevance threshold is dropped from the output without recording its
identifier, so a second run against the same input and output re-queues
that identifier: the second run's work queue is the whole input again,
not empty, contradicting "processes zero additional records". -/
theorem C5_counterexample_threshold_skip_requeued :
    urls_to_process oneUrl (run_once offTopicExtract failingPubOracle oneUrl []) = oneUrl ∧
      oneUrl ≠ [] := by
  decide

/-- C5 as amended: before any enrichment work the orchestrator loads the
prior output, takes its `linkedin_url` column as the processed set, and
filters the work queue against it, so no identifier present in the prior
output is ever re-enriched or duplicated; and when every input
identifier already appears in the prior output the queue is empty and
the run returns with the output unchanged. Identifiers whose profiles
were dropped by the threshold gate are absent from the output and are
processed again on a re-run. -/
theorem C5_amended_resume_filter (extract : String → Profile)
    (pubO : String → PubMedOutcome) (allUrls : List String)
    (existing : List OutRecord) :
    (∀ u ∈ urls_to_process allUrls existing, u ∉ get_processed_urls existing) ∧
    ((∀ u ∈ allUrls, u ∈ get_processed_urls existing) →
      urls_to_process allUrls existing = [] ∧
      run_once extract pubO allUrls existing = existing) := by
  constructor
  · intro u hu hmem
    rcases List.mem_filter.mp hu with ⟨_, hpred⟩
    have hc : (get_processed_urls existing).contains u = true := List.elem_iff.mpr hmem
    rw [hc] at hpred
    exact Bool.noConfusion hpred
  · intro hcov
    have hq : urls_to_process allUrls existing = [] := by
      unfold urls_to_process
      refine List.filter_eq_nil_iff.mpr ?_
      intro u hu
      have hc : (get_processed_urls existing).contains u = true :=
        List.elem_iff.mpr (hcov u hu)
      rw [hc]
      simp
    refine ⟨hq, ?_⟩
    unfold run_once
    rw [hq]
    rfl

theorem C5_amended_resume_filter_witness :
    ("url-b" ∉ get_processed_urls [mkRow "a" 50 "success"]) ∧
      urls_to_process ["url-a"] [mkRow "a" 50 "success"] = [] ∧
      run_once offTopicExtract failingPubOracle ["url-a"] [mkRow "a" 50 "success"] =
        [mkRow "a" 50 "success"] :=
  ⟨(C5_amended_resume_filter offTopicExtract failingPubOracle ["url-a", "url-b"]
      [mkRow "a" 50 "success"]).1 "url-b" (by decide),
   (C5_amended_resume_filter offTopicExtract failingPubOracle ["url-a"]
      [mkRow "a" 50 "success"]).2 (by decide)⟩

/-- C8 counterexample: for name "1 2" and company "Acme" neither failure
condition of the claim holds (two whitespace-separated tokens, usable
domain "acme.com"), yet `generate_email` returns the empty string,
because the name tokens contain no letters; the claim as stated predicts
".@acme.com". -/
theorem C8_counterexample_letterless_tokens : ¬ emailClaimSpec "1 2" "Acme" := by
  decide

/-- C8 as amended: `generate_email("Jane Doe", "Acme Therapeutics Inc")`
is "jane.doe@acmetherapeutics.com" and `generate_email("Jane", "Acme")`
is ""; the result is empty whenever the name has fewer than two
whitespace-separated tokens, or the company yields no usable domain, or
the first or last name token strips to no letters; a usable domain
always ends in ".com"; and otherwise the result is `first.last@domain`
from the letter-only first and last tokens and the inferred domain. -/
theorem C8_amended_generate_email :
    generate_email "Jane Doe" "Acme Therapeutics Inc" = "jane.doe@acmetherapeutics.com" ∧
    generate_email "Jane" "Acme" = "" ∧
    (∀ name company, (pySplitWS (pyLowerL name)).length < 2 →
      generate_email name company = "") ∧
    (∀ name company, infer_domain company = "" → generate_email name company = "") ∧
    (∀ name company,
      ((pySplitWS (pyLowerL name)).headD []).filter Char.isLower = [] ∨
        ((pySplitWS (pyLowerL name)).getLastD []).filter Char.isLower = [] →
      generate_email name company = "") ∧
    (∀ company, infer_domain company ≠ "" →
      ∃ base : List Char, base ≠ [] ∧ infer_domain company = ⟨base ++ ".com".data⟩) ∧
    (∀ name company, ¬(pySplitWS (pyLowerL name)).length < 2 →
      ((pySplitWS (pyLowerL name)).headD []).filter Char.isLower ≠ [] →
      ((pySplitWS (pyLowerL name)).getLastD []).filter Char.isLower ≠ [] →
      infer_domain company ≠ "" →
      generate_email name company =
        ⟨((pySplitWS (pyLowerL name)).headD []).filter Char.isLower ++
          '.' :: ((pySplitWS (pyLowerL name)).getLastD []).filter Char.isLower ++
          '@' :: (infer_domain company).data⟩) := by
  refine ⟨by decide, by decide, ?_, ?_, ?_, ?_, ?_⟩
  · intro name company h
    unfold generate_email
    by_cases h1 : name = "" ∨ company = ""
    · rw [if_pos h1]
    · rw [if_neg h1]
      dsimp only
      rw [if_pos h]
  · intro name company h
    unfold generate_email
    by_cases h1 : name = "" ∨ company = ""
    · rw [if_pos h1]
    · rw [if_neg h1]
      dsimp only
      by_cases h2 : (pySplitWS (pyLowerL name)).length < 2
      · rw [if_pos h2]
      · rw [if_neg h2, if_neg (fun hc => hc.2.2 h)]
  · intro name company h
    unfold generate_email
    by_cases h1 : name = "" ∨ company = ""
    · rw [if_pos h1]
    · rw [if_neg h1]
      dsimp only
      by_cases h2 : (pySplitWS (pyLowerL name)).length < 2
      · rw [if_pos h2]
      · refine (if_neg h2).trans (if_neg fun hc => ?_)
        rcases h with h | h
        · exact hc.1 h
        · exact hc.2.1 h
  · intro company h
    unfold infer_domain at h ⊢
    dsimp only at h ⊢
    split_ifs at h ⊢ with h1
    · exact absurd rfl h
    · refine ⟨_, ?_, rfl⟩
      intro hnil
      rw [← List.isEmpty_iff] at hnil
      exact h1 hnil
  · intro name company h1 h2 h3 h4
    unfold generate_email
    have hn1 : ¬(name = "" ∨ company = "") := by
      rintro (c | c)
      · exact h1 (by rw [c]; decide)
      · exact h4 (by rw [c]; decide)
    rw [if_neg hn1]
    dsimp only
    rw [if_neg h1, if_pos ⟨h2, h3, h4⟩]

theorem C8_amended_generate_email_witness :
    generate_email "Solo" "Acme" = "" ∧
      generate_email "Cd Ef" "Acme" =
        ⟨((pySplitWS (pyLowerL "Cd Ef")).headD []).filter Char.isLower ++
          '.' :: ((pySplitWS (pyLowerL "Cd Ef")).getLastD []).filter Char.isLower ++
          '@' :: (infer_domain "Acme").data⟩ :=
  ⟨C8_amended_generate_email.2.2.1 "Solo" "Acme" (by decide),
   C8_amended_generate_email.2.2.2.2.2.2 "Cd Ef" "Acme" (by decide) (by decide)
     (by decide) (by decide)⟩

end LeadGen
